import Mathlib

/-
  Shallow embedding of the byte-buffer / byte-cursor / dynamic-array
  primitives of the aws-c-common excerpt (src/source/byte_buf.c and the
  CBMC proof harnesses), together with theorems checking the
  natural-language specification against it.

  Modelling conventions:
  * memory is a total map from addresses to byte values (Mem below);
    a C pointer is an `Option Nat` address, `none` standing for NULL;
  * `size_t` values are `Nat`; where the C code subtracts two `size_t`
    values the surrounding invariant (stated as a theorem hypothesis
    where needed) guarantees the subtraction does not wrap, so natural
    subtraction coincides with the machine computation;
  * `uint64_t` arithmetic in the FNV-1a hash is taken modulo 2 ^ 64;
  * an allocator is an injected capability: each call site that invokes
    aws_mem_acquire takes the allocator's response for that call as an
    explicit `acquired` argument (`none` = allocation failure);
  * functions that mutate memory return the new `Mem` next to their
    C return value and the updated structure.
-/

set_option autoImplicit false

set_option maxRecDepth 4096

/-- Byte-addressed memory: the byte stored at each address. -/
abbrev Mem := Nat → Nat

/-- struct aws_byte_cursor: a non-owning (pointer, length) view.
`ptr = none` models a NULL pointer. -/
structure aws_byte_cursor where
  ptr : Option Nat
  len : Nat
deriving DecidableEq

/-- struct aws_byte_buf: owning (buffer, len, capacity, allocator).
`buffer = none` and `allocator = none` model NULL. -/
structure aws_byte_buf where
  buffer : Option Nat
  len : Nat
  capacity : Nat
  allocator : Option Nat
deriving DecidableEq

def AWS_OP_SUCCESS : Int := 0

def AWS_OP_ERR : Int := -1

/-- Modelled from the spec: the process-wide error codes raised via
aws_raise_error (error.h is not under src/); only their distinctness
matters to the claims. -/
inductive AwsErrorCode where
  | dest_copy_too_small
  | oom
deriving DecidableEq

/-- The `n` bytes of memory starting at address `p`, as a list. -/
def memBytes (mem : Mem) (p n : Nat) : List Nat :=
  (List.range n).map (fun i => mem (p + i))

/-- C memcpy: copy `n` bytes from address `src` to address `dst`
(regions assumed non-overlapping, as C requires). -/
def memcpy (mem : Mem) (dst src n : Nat) : Mem :=
  fun a => if dst ≤ a ∧ a < dst + n then mem (src + (a - dst)) else mem a

/-- C memchr over the model: address of the first occurrence of byte `c`
in the `n` bytes starting at `p`, or `none`. -/
def memchr (mem : Mem) (p c n : Nat) : Option Nat :=
  ((List.range n).find? (fun i => mem (p + i) == c)).map (fun i => p + i)

/-- aws_byte_buf_init (byte_buf.c lines 27-36): `acquired` is the
allocator's response to aws_mem_acquire(allocator, capacity). Note the
source writes buf->buffer with that response before the NULL check. -/
def aws_byte_buf_init (buf : aws_byte_buf) (allocator : Option Nat) (capacity : Nat)
    (acquired : Option Nat) : Int × aws_byte_buf :=
  let buf1 : aws_byte_buf := { buf with buffer := acquired }
  match acquired with
  | none => (AWS_OP_ERR, buf1)
  | some _ =>
      (AWS_OP_SUCCESS, { buf1 with len := 0, capacity := capacity, allocator := allocator })

/-- aws_byte_buf_clean_up (byte_buf.c lines 38-46): first component is
the pointer released through the allocator, if any. -/
def aws_byte_buf_clean_up (buf : aws_byte_buf) : Option Nat × aws_byte_buf :=
  ((match buf.allocator, buf.buffer with
    | some _, some p => some p
    | _, _ => none),
   { buffer := none, len := 0, capacity := 0, allocator := none })

/-- Modelled from the spec: aws_secure_zero (not under src/) overwrites
`n` bytes at `p` with zero, in a way the optimizer may not elide. -/
def aws_secure_zero (mem : Mem) (p n : Nat) : Mem :=
  fun a => if p ≤ a ∧ a < p + n then 0 else mem a

/-- aws_byte_buf_secure_zero (byte_buf.c lines 48-53). -/
def aws_byte_buf_secure_zero (mem : Mem) (buf : aws_byte_buf) : Mem × aws_byte_buf :=
  (match buf.buffer with
   | some p => aws_secure_zero mem p buf.capacity
   | none => mem,
   { buf with len := 0 })

/-- aws_byte_cursor_eq (byte_buf.c lines 213-228); the `Option` on the
arguments models the nullable struct pointers `a` and `b`. -/
def aws_byte_cursor_eq (mem : Mem) (a b : Option aws_byte_cursor) : Bool :=
  match a, b with
  | none, none => true
  | none, some _ => false
  | some _, none => false
  | some ac, some bc =>
      if ac.len ≠ bc.len then false
      else if ac.ptr.isNone || bc.ptr.isNone then decide (ac.ptr = bc.ptr)
      else decide (memBytes mem (ac.ptr.getD 0) ac.len = memBytes mem (bc.ptr.getD 0) ac.len)

/-- aws_byte_buf_eq (byte_buf.c lines 60-74). -/
def aws_byte_buf_eq (mem : Mem) (a b : Option aws_byte_buf) : Bool :=
  match a, b with
  | none, none => true
  | none, some _ => false
  | some _, none => false
  | some ab, some bb =>
      if ab.len ≠ bb.len then false
      else if ab.buffer.isNone || bb.buffer.isNone then decide (ab.buffer = bb.buffer)
      else decide (memBytes mem (ab.buffer.getD 0) ab.len = memBytes mem (bb.buffer.getD 0) ab.len)

/-- aws_byte_cursor_eq_byte_buf (byte_buf.c lines 281-296). -/
def aws_byte_cursor_eq_byte_buf (mem : Mem) (a : Option aws_byte_cursor)
    (b : Option aws_byte_buf) : Bool :=
  match a, b with
  | none, none => true
  | none, some _ => false
  | some _, none => false
  | some ac, some bb =>
      if ac.len ≠ bb.len then false
      else if ac.ptr.isNone || bb.buffer.isNone then decide (ac.ptr = bb.buffer)
      else decide (memBytes mem (ac.ptr.getD 0) ac.len = memBytes mem (bb.buffer.getD 0) ac.len)

/-- aws_byte_buf_init_copy_from_cursor (byte_buf.c lines 76-101):
`acquired` is the allocator's response to
aws_mem_acquire(allocator, sizeof(uint8_t) * src.len), consulted only
when the source pointer is non-NULL. -/
def aws_byte_buf_init_copy_from_cursor (mem : Mem) (dest : aws_byte_buf)
    (allocator : Option Nat) (src : aws_byte_cursor) (acquired : Option Nat) :
    Int × Mem × aws_byte_buf :=
  let d0 : aws_byte_buf := { dest with len := 0, capacity := 0, allocator := none }
  match src.ptr with
  | none => (AWS_OP_SUCCESS, mem, { d0 with buffer := none })
  | some sp =>
      match acquired with
      | none => (AWS_OP_ERR, mem, { d0 with buffer := none })
      | some dp =>
          (AWS_OP_SUCCESS, memcpy mem dp sp src.len,
           { buffer := some dp, len := src.len, capacity := src.len, allocator := allocator })

/-- Modelled from the spec: aws_byte_cursor_from_buf (header-only, not
under src/) views the buffer's used region: pointer = buf.buffer,
length = buf.len. -/
def aws_byte_cursor_from_buf (buf : aws_byte_buf) : aws_byte_cursor :=
  { ptr := buf.buffer, len := buf.len }

/-- aws_byte_buf_append (byte_buf.c lines 298-309): returns
(return code, error raised, memory after, dest after). -/
def aws_byte_buf_append (mem : Mem) (dst : aws_byte_buf) (src : aws_byte_cursor) :
    Int × Option AwsErrorCode × Mem × aws_byte_buf :=
  if dst.capacity - dst.len < src.len then
    (AWS_OP_ERR, some AwsErrorCode.dest_copy_too_small, mem, dst)
  else
    (AWS_OP_SUCCESS, none,
     memcpy mem (dst.buffer.getD 0 + dst.len) (src.ptr.getD 0) src.len,
     { dst with len := dst.len + src.len })

/-- s_tolower_table (byte_buf.c lines 230-243): every possible uint8_t
value, lowercased; written as a 256-entry list mirroring the C
initializer (letter literals replaced by their ASCII codes). -/
def s_tolower_table : List Nat :=
  [0, 1, 2, 3, 4, 5, 6, 7, 8, 9, 10, 11, 12, 13, 14, 15, 16, 17, 18, 19, 20,
  21, 22, 23, 24, 25, 26, 27, 28, 29, 30, 31, 32, 33, 34, 35, 36, 37, 38, 39,
  40, 41, 42, 43, 44, 45, 46, 47, 48, 49, 50, 51, 52, 53, 54, 55, 56, 57, 58,
  59, 60, 61, 62, 63, 64, 97, 98, 99, 100, 101, 102, 103, 104, 105, 106, 107,
  108, 109, 110, 111, 112, 113, 114, 115, 116, 117, 118, 119, 120, 121, 122,
  91, 92, 93, 94, 95, 96, 97, 98, 99, 100, 101, 102, 103, 104, 105, 106, 107,
  108, 109, 110, 111, 112, 113, 114, 115, 116, 117, 118, 119, 120, 121, 122,
  123, 124, 125, 126, 127, 128, 129, 130, 131, 132, 133, 134, 135, 136, 137,
  138, 139, 140, 141, 142, 143, 144, 145, 146, 147, 148, 149, 150, 151, 152,
  153, 154, 155, 156, 157, 158, 159, 160, 161, 162, 163, 164, 165, 166, 167,
  168, 169, 170, 171, 172, 173, 174, 175, 176, 177, 178, 179, 180, 181, 182,
  183, 184, 185, 186, 187, 188, 189, 190, 191, 192, 193, 194, 195, 196, 197,
  198, 199, 200, 201, 202, 203, 204, 205, 206, 207, 208, 209, 210, 211, 212,
  213, 214, 215, 216, 217, 218, 219, 220, 221, 222, 223, 224, 225, 226, 227,
  228, 229, 230, 231, 232, 233, 234, 235, 236, 237, 238, 239, 240, 241, 242,
  243, 244, 245, 246, 247, 248, 249, 250, 251, 252, 253, 254, 255]

/-- aws_byte_cursor_eq_case_insensitive (byte_buf.c lines 245-261):
byte-wise comparison through s_tolower_table. -/
def aws_byte_cursor_eq_case_insensitive (mem : Mem) (a b : Option aws_byte_cursor) : Bool :=
  match a, b with
  | none, none => true
  | none, some _ => false
  | some _, none => false
  | some ac, some bc =>
      if ac.len ≠ bc.len then false
      else
        (List.range ac.len).all (fun i =>
          s_tolower_table.getD (mem (ac.ptr.getD 0 + i)) 0 ==
            s_tolower_table.getD (mem (bc.ptr.getD 0 + i)) 0)

/-- aws_hash_byte_cursor_ptr_case_insensitive (byte_buf.c lines
263-279): FNV-1a over the lowercased bytes, uint64_t arithmetic taken
modulo 2 ^ 64. -/
def aws_hash_byte_cursor_ptr_case_insensitive (mem : Mem) (cursor : aws_byte_cursor) : Nat :=
  (List.range cursor.len).foldl
    (fun hash i =>
      ((hash ^^^ s_tolower_table.getD (mem (cursor.ptr.getD 0 + i)) 0) * 0x100000001b3) % 2 ^ 64)
    0xcbf29ce484222325

/-- aws_byte_cursor_next_split (byte_buf.c lines 103-151). The substr
state cursor is represented by its (possibly NULL) pointer and length;
pointer arithmetic is over the Nat addresses of the model. The size_t
subtractions match the C computation on every state reachable from a
zeroed substr, where the scan invariant ptr + len <= end holds. -/
def aws_byte_cursor_next_split (mem : Mem) (input_str : aws_byte_cursor) (split_on : Nat)
    (substr : aws_byte_cursor) : Bool × aws_byte_cursor :=
  let base := input_str.ptr.getD 0
  let first_run := substr.ptr.isNone
  let p0 := match substr.ptr with
    | none => base
    | some q => q
  let l0 := match substr.ptr with
    | none => 0
    | some _ => substr.len
  if p0 > base + input_str.len then
    (false, { ptr := none, len := 0 })
  else
    let p1 := p0 + l0
    let l1 := input_str.len - (p1 - base)
    if !first_run && l1 == 0 then
      (false, { ptr := none, len := 0 })
    else if !first_run && mem p1 == split_on then
      let p2 := p1 + 1
      let l2 := l1 - 1
      if l2 == 0 then
        (true, { ptr := some p2, len := 0 })
      else
        match memchr mem p2 split_on l2 with
        | some new_location => (true, { ptr := some p2, len := new_location - p2 })
        | none => (true, { ptr := some p2, len := l2 })
    else
      match memchr mem p1 split_on l1 with
      | some new_location => (true, { ptr := some p1, len := new_location - p1 })
      | none => (true, { ptr := some p1, len := l1 })

def SIZE_MAX : Nat := 2 ^ 64 - 1

/-- Loop body of aws_byte_cursor_split_on_char_n (byte_buf.c lines
169-180). The output dynamic array is modelled as the list of cursors
pushed so far, with aws_array_list_push_back always succeeding (the
dynamic-array implementation is not under src/; the spec requires
push_back to append on success). The loop is driven by fuel; `none`
reports fuel exhaustion only and is never returned when the fuel is at
least input_str.len + 2, which the wrapper below supplies. -/
def splitLoop (mem : Mem) (input_str : aws_byte_cursor) (split_on max_splits : Nat)
    (split_count : Nat) (substr : aws_byte_cursor) (out : List aws_byte_cursor)
    (fuel : Nat) : Option (List aws_byte_cursor) :=
  match fuel with
  | 0 => none
  | fuel0 + 1 =>
      if split_count ≤ max_splits then
        match aws_byte_cursor_next_split mem input_str split_on substr with
        | (false, _) => some out
        | (true, s) =>
            let s1 := if split_count == max_splits then
                { s with len := input_str.len - (s.ptr.getD 0 - input_str.ptr.getD 0) }
              else s
            splitLoop mem input_str split_on max_splits (split_count + 1) s1
              (out ++ [s1]) fuel0
      else some out

/-- aws_byte_cursor_split_on_char_n (byte_buf.c lines 153-183). -/
def aws_byte_cursor_split_on_char_n (mem : Mem) (input_str : aws_byte_cursor)
    (split_on : Nat) (n : Nat) : Option (List aws_byte_cursor) :=
  let max_splits := if n > 0 then n else SIZE_MAX
  splitLoop mem input_str split_on max_splits 0 { ptr := none, len := 0 } []
    (input_str.len + 2)

/-- aws_byte_cursor_split_on_char (byte_buf.c lines 185-191). -/
def aws_byte_cursor_split_on_char (mem : Mem) (input_str : aws_byte_cursor)
    (split_on : Nat) : Option (List aws_byte_cursor) :=
  aws_byte_cursor_split_on_char_n mem input_str split_on 0

/-- struct aws_array_list, with field names as in the CBMC harness
assertions; the backing storage is modelled as the list of allocated
bytes (`none` = NULL data pointer). -/
structure aws_array_list where
  alloc : Option Nat
  current_size : Nat
  length : Nat
  item_size : Nat
  data : Option (List Nat)
deriving DecidableEq

/-- Modelled from the spec: aws_array_list_clean_up (implementation not
under src/; the harness asserts its post-state) releases the storage if
allocated, then zeroes allocator, current_size, length, item_size and
the data pointer. First component is the released storage, if any. -/
def aws_array_list_clean_up (list : aws_array_list) : Option (List Nat) × aws_array_list :=
  ((match list.alloc, list.data with
    | some _, some d => some d
    | _, _ => none),
   { alloc := none, current_size := 0, length := 0, item_size := 0, data := none })

/-- Modelled from the spec: aws_array_list_pop_front_n (implementation
not under src/) removes up to n elements from the front, shifting the
remaining elements down and decrementing length; removing more than
length elements empties the list without error (saturating). Bytes past
the shifted live region keep their old values. -/
def aws_array_list_pop_front_n (list : aws_array_list) (n : Nat) : aws_array_list :=
  let popped := min n list.length
  let popping_bytes := popped * list.item_size
  let remaining_bytes := (list.length - popped) * list.item_size
  { list with
    length := list.length - popped,
    data := list.data.map (fun bytes =>
      ((bytes.drop popping_bytes).take remaining_bytes) ++ bytes.drop remaining_bytes) }

/-- Modelled from the spec: aws_array_list_shrink_to_fit (implementation
not under src/; the harness asserts its post-state) reallocates the
backing storage to exactly length * item_size bytes: when length = 0 it
releases the storage entirely (data pointer NULL, current_size 0);
otherwise it allocates exactly the needed bytes (`acquired` is the
allocator's response), copies the live elements, and sets current_size
to length * item_size; on allocation failure the list is unchanged and
the call reports failure. -/
def aws_array_list_shrink_to_fit (list : aws_array_list)
    (acquired : Option (List Nat)) : Int × aws_array_list :=
  if list.length = 0 then
    (AWS_OP_SUCCESS, { list with data := none, current_size := 0 })
  else
    let needed := list.length * list.item_size
    match acquired with
    | none => (AWS_OP_ERR, list)
    | some _ =>
        (AWS_OP_SUCCESS,
         { list with data := some ((list.data.getD []).take needed),
                     current_size := needed })

/-- Spec-side ASCII lowercasing, following the spec's words: the ASCII
uppercase letters 0x41..0x5A map to 0x61..0x7A, every other byte value
maps to itself. -/
def ascii_tolower_spec (b : Nat) : Nat :=
  if 65 ≤ b ∧ b ≤ 90 then b + 32 else b

/-- Input bytes of the split scenario: "a,b,,c," as ASCII codes. -/
def c1_bytes : List Nat := [97, 44, 98, 44, 44, 99, 44]

/-- Memory holding c1_bytes at addresses 0..6. -/
def c1_mem : Mem := fun a => c1_bytes.getD a 0

/-- Input cursor over the seven bytes of "a,b,,c,". -/
def c1_input : aws_byte_cursor := { ptr := some 0, len := 7 }

/-- All-zero memory, used as a concrete instance. -/
def wmem0 : Mem := fun _ => 0

/-- Concrete well-formed dynamic array used as a witness input. -/
def w_list : aws_array_list :=
  { alloc := some 1, current_size := 4, length := 2, item_size := 2, data := some [5, 6, 7, 8] }

/-- Concrete destination buffer: capacity 2, one byte used. -/
def w4_buf : aws_byte_buf := { buffer := some 0, len := 1, capacity := 2, allocator := none }

/-- Concrete source cursor too large for the free space of w4_buf. -/
def w4_big : aws_byte_cursor := { ptr := some 10, len := 5 }

/-- Concrete source cursor fitting the free space of w4_buf. -/
def w4_fit : aws_byte_cursor := { ptr := some 10, len := 1 }

/-- Concrete buffer with every field non-zero, to observe which fields
a failing aws_byte_buf_init writes. -/
def c5_buf : aws_byte_buf := { buffer := some 7, len := 3, capacity := 4, allocator := some 1 }

/-- Concrete empty destination buffer for the copy round-trip. -/
def w6_dest : aws_byte_buf := { buffer := none, len := 0, capacity := 0, allocator := none }

/-- Concrete source cursor for the copy round-trip: two bytes at 0. -/
def w6_src : aws_byte_cursor := { ptr := some 0, len := 2 }

/-- Memory holding an uppercase A at address 0 and a lowercase a at 1. -/
def w7_mem : Mem := fun a => [65, 97].getD a 0

/-- Cursor over the single byte at address 0 of w7_mem. -/
def w7_a : aws_byte_cursor := { ptr := some 0, len := 1 }

/-- Cursor over the single byte at address 1 of w7_mem. -/
def w7_b : aws_byte_cursor := { ptr := some 1, len := 1 }

lemma memBytes_memcpy_dst (mem : Mem) (dp sp n : Nat) :
    memBytes (memcpy mem dp sp n) dp n = memBytes mem sp n := by
  unfold memBytes
  apply List.map_congr_left
  intro i hi
  have hin : i < n := List.mem_range.mp hi
  unfold memcpy
  rw [if_pos ⟨Nat.le_add_right _ _, by omega⟩]
  congr 1
  omega

lemma memBytes_memcpy_frame (mem : Mem) (dp sp n p m : Nat)
    (h : p + m ≤ dp ∨ dp + n ≤ p) :
    memBytes (memcpy mem dp sp n) p m = memBytes mem p m := by
  unfold memBytes
  apply List.map_congr_left
  intro i hi
  have hin : i < m := List.mem_range.mp hi
  unfold memcpy
  rw [if_neg]
  rcases h with h | h
  · intro hc
    omega
  · intro hc
    omega

lemma foldl_congr_on (step : Nat → Nat → Nat) (f g : Nat → Nat) :
    ∀ (l : List Nat) (init : Nat), (∀ x ∈ l, f x = g x) →
      l.foldl (fun h x => step h (f x)) init = l.foldl (fun h x => step h (g x)) init := by
  intro l
  induction l with
  | nil => intro init _; rfl
  | cons x xs ih =>
      intro init h
      simp only [List.foldl_cons]
      rw [h x (List.mem_cons_self x xs)]
      exact ih _ (fun y hy => h y (List.mem_cons_of_mem x hy))

/-- Claim C1: over the bytes of "a,b,,c," (97,44,98,44,44,99,44) with
delimiter 44, iterating aws_byte_cursor_next_split from a zeroed state
cursor produces exactly the five segments "a", "b", "", "c", "" and
then returns false with the state zeroed; aws_byte_cursor_split_on_char_n
with n = 0 collects those same five segments, and with n = 2 collects
exactly "a", "b", ",c," where the final permitted split takes the
unsplit remainder verbatim. -/
theorem c1_split_concrete :
    aws_byte_cursor_next_split c1_mem c1_input 44 { ptr := none, len := 0 } =
      (true, { ptr := some 0, len := 1 }) ∧
    aws_byte_cursor_next_split c1_mem c1_input 44 { ptr := some 0, len := 1 } =
      (true, { ptr := some 2, len := 1 }) ∧
    aws_byte_cursor_next_split c1_mem c1_input 44 { ptr := some 2, len := 1 } =
      (true, { ptr := some 4, len := 0 }) ∧
    aws_byte_cursor_next_split c1_mem c1_input 44 { ptr := some 4, len := 0 } =
      (true, { ptr := some 5, len := 1 }) ∧
    aws_byte_cursor_next_split c1_mem c1_input 44 { ptr := some 5, len := 1 } =
      (true, { ptr := some 7, len := 0 }) ∧
    aws_byte_cursor_next_split c1_mem c1_input 44 { ptr := some 7, len := 0 } =
      (false, { ptr := none, len := 0 }) ∧
    (aws_byte_cursor_split_on_char_n c1_mem c1_input 44 0).map
        (List.map (fun s => memBytes c1_mem (s.ptr.getD 0) s.len)) =
      some [[97], [98], [], [99], []] ∧
    (aws_byte_cursor_split_on_char_n c1_mem c1_input 44 2).map
        (List.map (fun s => memBytes c1_mem (s.ptr.getD 0) s.len)) =
      some [[97], [98], [44, 99, 44]] := by
  decide

/-- Claim C2: for every well-formed bounded dynamic array (item_size at
most 2 as in the harness, length * item_size within the allocation),
after aws_array_list_clean_up the post-state has alloc = none,
current_size = 0, length = 0, item_size = 0 and data = none, regardless
of the pre-call length, item_size and current_size. -/
theorem c2_clean_up_zeroes (list : aws_array_list)
    (h1 : list.item_size ≤ 2) (h2 : list.length * list.item_size ≤ list.current_size) :
    (aws_array_list_clean_up list).2.alloc = none ∧
    (aws_array_list_clean_up list).2.current_size = 0 ∧
    (aws_array_list_clean_up list).2.length = 0 ∧
    (aws_array_list_clean_up list).2.item_size = 0 ∧
    (aws_array_list_clean_up list).2.data = none :=
  ⟨rfl, rfl, rfl, rfl, rfl⟩

theorem c2_clean_up_zeroes_witness :
    (aws_array_list_clean_up w_list).2.alloc = none ∧
    (aws_array_list_clean_up w_list).2.current_size = 0 ∧
    (aws_array_list_clean_up w_list).2.length = 0 ∧
    (aws_array_list_clean_up w_list).2.item_size = 0 ∧
    (aws_array_list_clean_up w_list).2.data = none :=
  c2_clean_up_zeroes w_list (by decide) (by decide)

/-- Claim C3: for every well-formed bounded dynamic array and every n,
after aws_array_list_pop_front_n followed by a successful
aws_array_list_shrink_to_fit the post-state satisfies either
(length = 0 and data = none) or (data non-null and current_size =
length * item_size): shrink-to-fit is exact and fully releases storage
when the list is empty. -/
theorem c3_shrink_exact (list : aws_array_list) (n : Nat) (acquired : Option (List Nat))
    (h1 : list.item_size ≤ 2) (h2 : list.length * list.item_size ≤ list.current_size) :
    (aws_array_list_shrink_to_fit (aws_array_list_pop_front_n list n) acquired).1 =
        AWS_OP_SUCCESS →
    (((aws_array_list_shrink_to_fit (aws_array_list_pop_front_n list n) acquired).2.length = 0 ∧
      (aws_array_list_shrink_to_fit (aws_array_list_pop_front_n list n) acquired).2.data = none) ∨
     ((aws_array_list_shrink_to_fit (aws_array_list_pop_front_n list n) acquired).2.data ≠ none ∧
      (aws_array_list_shrink_to_fit (aws_array_list_pop_front_n list n) acquired).2.current_size =
        (aws_array_list_shrink_to_fit (aws_array_list_pop_front_n list n) acquired).2.length *
          (aws_array_list_shrink_to_fit (aws_array_list_pop_front_n list n) acquired).2.item_size)) := by
  intro hsucc
  by_cases hl : (aws_array_list_pop_front_n list n).length = 0
  · left
    constructor <;> simp [aws_array_list_shrink_to_fit, hl]
  · right
    rcases acquired with _ | fresh
    · exfalso
      simp [aws_array_list_shrink_to_fit, hl, AWS_OP_ERR, AWS_OP_SUCCESS] at hsucc
    · constructor <;> simp [aws_array_list_shrink_to_fit, hl]

theorem c3_shrink_exact_witness :
    ((aws_array_list_shrink_to_fit (aws_array_list_pop_front_n w_list 1) (some [9, 9])).2.length = 0 ∧
     (aws_array_list_shrink_to_fit (aws_array_list_pop_front_n w_list 1) (some [9, 9])).2.data = none) ∨
    ((aws_array_list_shrink_to_fit (aws_array_list_pop_front_n w_list 1) (some [9, 9])).2.data ≠ none ∧
     (aws_array_list_shrink_to_fit (aws_array_list_pop_front_n w_list 1) (some [9, 9])).2.current_size =
       (aws_array_list_shrink_to_fit (aws_array_list_pop_front_n w_list 1) (some [9, 9])).2.length *
         (aws_array_list_shrink_to_fit (aws_array_list_pop_front_n w_list 1) (some [9, 9])).2.item_size) :=
  c3_shrink_exact w_list 1 (some [9, 9]) (by decide) (by decide) (by decide)

/-- Claim C4: for every destination buffer with len at most capacity and
every source cursor, if the source is larger than the free space then
aws_byte_buf_append returns the destination-too-small error and leaves
memory and every field of the destination unchanged; otherwise it
succeeds, copies the source bytes to buffer[len..], advances len by the
source length, and leaves buffer, capacity and allocator unchanged. -/
theorem c4_append_spec (mem : Mem) (dst : aws_byte_buf) (src : aws_byte_cursor)
    (hlen : dst.len ≤ dst.capacity) :
    (dst.capacity - dst.len < src.len →
      aws_byte_buf_append mem dst src =
        (AWS_OP_ERR, some AwsErrorCode.dest_copy_too_small, mem, dst)) ∧
    (src.len ≤ dst.capacity - dst.len →
      ((aws_byte_buf_append mem dst src).1 = AWS_OP_SUCCESS ∧
       (aws_byte_buf_append mem dst src).2.2.2 = { dst with len := dst.len + src.len } ∧
       memBytes (aws_byte_buf_append mem dst src).2.2.1 (dst.buffer.getD 0 + dst.len) src.len =
         memBytes mem (src.ptr.getD 0) src.len)) := by
  constructor
  · intro h
    simp [aws_byte_buf_append, h]
  · intro h
    have h2 : ¬ (dst.capacity - dst.len < src.len) := not_lt.mpr h
    refine ⟨by simp [aws_byte_buf_append, h2], by simp [aws_byte_buf_append, h2], ?_⟩
    simp only [aws_byte_buf_append, h2, if_neg, if_false]
    exact memBytes_memcpy_dst mem _ _ _

theorem c4_append_spec_witness :
    aws_byte_buf_append wmem0 w4_buf w4_big =
      (AWS_OP_ERR, some AwsErrorCode.dest_copy_too_small, wmem0, w4_buf) ∧
    (aws_byte_buf_append wmem0 w4_buf w4_fit).1 = AWS_OP_SUCCESS :=
  ⟨(c4_append_spec wmem0 w4_buf w4_big (by decide)).1 (by decide),
   ((c4_append_spec wmem0 w4_buf w4_fit (by decide)).2 (by decide)).1⟩

/-- Claim C5 counterexample: the claim says a failing aws_byte_buf_init
writes no field of the caller's struct, but the source assigns
buf->buffer = aws_mem_acquire(...) before the NULL check, so on failure
the buffer field is written (becomes NULL): starting from c5_buf (whose
buffer field is non-null), the failing call returns AWS_OP_ERR yet the
struct differs from its pre-state. -/
theorem c5_init_fail_counterexample :
    (aws_byte_buf_init c5_buf (some 2) 9 none).1 = AWS_OP_ERR ∧
    (aws_byte_buf_init c5_buf (some 2) 9 none).2 ≠ c5_buf := by
  decide

/-- Claim C5 (amended): when the allocator fails, aws_byte_buf_init
returns the error result and leaves len, capacity and allocator
unwritten, but it does write the buffer field with the allocator's null
result, so buffer = none afterwards. -/
theorem c5_init_fail_amended (buf : aws_byte_buf) (allocator : Option Nat) (capacity : Nat) :
    (aws_byte_buf_init buf allocator capacity none).1 = AWS_OP_ERR ∧
    (aws_byte_buf_init buf allocator capacity none).2 = { buf with buffer := none } :=
  ⟨rfl, rfl⟩

/-- Claim C6: for a source cursor with a non-null pointer, a successful
aws_byte_buf_init_copy_from_cursor (fresh destination block disjoint
from the source bytes) followed by viewing the result through
aws_byte_cursor_from_buf yields a cursor equal under aws_byte_cursor_eq
to the source; for a null-pointer source the call succeeds for every
allocator response without touching memory, and the resulting buffer
has buffer = none, len = 0, capacity = 0 and allocator = none. -/
theorem c6_copy_roundtrip (mem : Mem) (dest : aws_byte_buf) (allocator : Option Nat)
    (src : aws_byte_cursor) (sp dp : Nat)
    (hsp : src.ptr = some sp)
    (hdisj : dp + src.len ≤ sp ∨ sp + src.len ≤ dp) :
    ((aws_byte_buf_init_copy_from_cursor mem dest allocator src (some dp)).1 = AWS_OP_SUCCESS ∧
     aws_byte_cursor_eq (aws_byte_buf_init_copy_from_cursor mem dest allocator src (some dp)).2.1
       (some (aws_byte_cursor_from_buf
         (aws_byte_buf_init_copy_from_cursor mem dest allocator src (some dp)).2.2))
       (some src) = true) ∧
    (∀ (mem2 : Mem) (dest2 : aws_byte_buf) (alloc2 : Option Nat) (acq2 : Option Nat) (l : Nat),
      aws_byte_buf_init_copy_from_cursor mem2 dest2 alloc2 { ptr := none, len := l } acq2 =
        (AWS_OP_SUCCESS, mem2,
         { buffer := none, len := 0, capacity := 0, allocator := none })) := by
  constructor
  · have hdst : memBytes (memcpy mem dp sp src.len) dp src.len = memBytes mem sp src.len :=
      memBytes_memcpy_dst mem dp sp src.len
    have hsrc : memBytes (memcpy mem dp sp src.len) sp src.len = memBytes mem sp src.len :=
      memBytes_memcpy_frame mem dp sp src.len sp src.len (by omega)
    constructor
    · simp [aws_byte_buf_init_copy_from_cursor, hsp]
    · simp [aws_byte_buf_init_copy_from_cursor, hsp, aws_byte_cursor_from_buf,
        aws_byte_cursor_eq, hsp, hdst, hsrc]
  · intro mem2 dest2 alloc2 acq2 l
    rfl

theorem c6_copy_roundtrip_witness :
    (aws_byte_buf_init_copy_from_cursor wmem0 w6_dest none w6_src (some 10)).1 = AWS_OP_SUCCESS ∧
    aws_byte_cursor_eq (aws_byte_buf_init_copy_from_cursor wmem0 w6_dest none w6_src (some 10)).2.1
      (some (aws_byte_cursor_from_buf
        (aws_byte_buf_init_copy_from_cursor wmem0 w6_dest none w6_src (some 10)).2.2))
      (some w6_src) = true :=
  (c6_copy_roundtrip wmem0 w6_dest none w6_src 0 10 rfl (by decide)).1

/-- Claim C7: whenever aws_byte_cursor_eq_case_insensitive accepts two
cursors, their aws_hash_byte_cursor_ptr_case_insensitive values agree:
the FNV-1a hash over the lowercased bytes is a congruence for
case-insensitive equality. -/
theorem c7_hash_congruence (mem : Mem) (a b : aws_byte_cursor)
    (h : aws_byte_cursor_eq_case_insensitive mem (some a) (some b) = true) :
    aws_hash_byte_cursor_ptr_case_insensitive mem a =
      aws_hash_byte_cursor_ptr_case_insensitive mem b := by
  unfold aws_byte_cursor_eq_case_insensitive at h
  by_cases hlen : a.len = b.len
  · simp only [hlen, ne_eq, not_true_eq_false, if_false, List.all_eq_true, beq_iff_eq] at h
    unfold aws_hash_byte_cursor_ptr_case_insensitive
    rw [hlen]
    refine foldl_congr_on (fun hv v => ((hv ^^^ v) * 0x100000001b3) % 2 ^ 64)
      (fun i => s_tolower_table.getD (mem (a.ptr.getD 0 + i)) 0)
      (fun i => s_tolower_table.getD (mem (b.ptr.getD 0 + i)) 0)
      (List.range b.len) 0xcbf29ce484222325 ?_
    intro x hx
    exact h x hx
  · simp [hlen] at h

theorem c7_hash_congruence_witness :
    aws_hash_byte_cursor_ptr_case_insensitive w7_mem w7_a =
      aws_hash_byte_cursor_ptr_case_insensitive w7_mem w7_b :=
  c7_hash_congruence w7_mem w7_a w7_b (by decide)

/-- Claim C8: the 256-entry lowercase table maps exactly the ASCII
uppercase letters 0x41..0x5A to their lowercase forms and every other
byte value, in particular every byte at or above 0x80, to itself; hence
two bytes compare equal through the table exactly when they agree after
spec-side ASCII lowercasing, so the table-driven comparison differs
from exact byte equality only in ASCII letter case. -/
theorem c8_tolower_table_spec :
    (∀ b : Fin 256, s_tolower_table.getD b.val 0 = ascii_tolower_spec b.val) ∧
    (∀ x y : Fin 256,
      (s_tolower_table.getD x.val 0 = s_tolower_table.getD y.val 0 ↔
        ascii_tolower_spec x.val = ascii_tolower_spec y.val)) := by
  have h : ∀ b : Fin 256, s_tolower_table.getD b.val 0 = ascii_tolower_spec b.val := by
    decide
  exact ⟨h, fun x y => by rw [h x, h y]⟩

/-- Claim C9: for every buffer with a non-null buffer pointer,
aws_byte_buf_secure_zero zeroes all capacity bytes of the allocation
(not only the used len bytes), resets len to 0, and leaves the buffer
pointer, capacity and allocator fields unchanged. -/
theorem c9_secure_zero_spec (mem : Mem) (p lenv cap : Nat) (alloc : Option Nat) :
    memBytes (aws_byte_buf_secure_zero mem
        { buffer := some p, len := lenv, capacity := cap, allocator := alloc }).1 p cap =
      List.replicate cap 0 ∧
    (aws_byte_buf_secure_zero mem
        { buffer := some p, len := lenv, capacity := cap, allocator := alloc }).2 =
      { buffer := some p, len := 0, capacity := cap, allocator := alloc } := by
  constructor
  · show memBytes (aws_secure_zero mem p cap) p cap = List.replicate cap 0
    unfold memBytes aws_secure_zero
    rw [List.map_congr_left (g := fun _ => (0 : Nat))
      (by
        intro i hi
        have hin : i < cap := List.mem_range.mp hi
        exact if_pos ⟨Nat.le_add_right _ _, by omega⟩)]
    rw [List.map_const', List.length_range]
  · rfl

/-- Claim C10: for zero-length cursors, aws_byte_cursor_eq returns true
exactly when the two pointers are both null or both non-null (an empty
null-pointer cursor is unequal to an empty non-null one, while two
empty cursors at different non-null addresses are equal); the same rule
holds for aws_byte_cursor_eq_byte_buf against a zero-length buffer. -/
theorem c10_eq_zero_len (mem : Mem) (pa pb bufp : Option Nat) (cap : Nat) (alloc : Option Nat) :
    (aws_byte_cursor_eq mem (some { ptr := pa, len := 0 }) (some { ptr := pb, len := 0 }) = true ↔
      ((pa = none ∧ pb = none) ∨ (pa ≠ none ∧ pb ≠ none))) ∧
    (aws_byte_cursor_eq_byte_buf mem (some { ptr := pa, len := 0 })
        (some { buffer := bufp, len := 0, capacity := cap, allocator := alloc }) = true ↔
      ((pa = none ∧ bufp = none) ∨ (pa ≠ none ∧ bufp ≠ none))) := by
  constructor
  · rcases pa with _ | a <;> rcases pb with _ | b <;>
      simp [aws_byte_cursor_eq, memBytes]
  · rcases pa with _ | a <;> rcases bufp with _ | b <;>
      simp [aws_byte_cursor_eq_byte_buf, memBytes]
